import Mathlib

/-!
Shallow embedding of the four container components of the
`google_cloud_pipeline_components` v1 subset found in this repository:
`bigquery_query_job`, `bigquery_explain_forecast_model_job`,
`bigquery_export_model_job` and `wait_gcp_resources`.

Each Python function is a pure mapping from its keyword arguments to a
`ContainerSpec`.  Every parameter is modelled as the string the host
orchestrator substitutes for it on the command line, and the
`ConcatPlaceholder` wrapper from `kfp.dsl` as string concatenation of
its fragments.  Brace characters inside string literals are written
with the escapes \x7b and \x7d and apostrophes with \x27; the strings
are otherwise verbatim from the source.
-/

/-- The container specification a component returns: a container image
reference, an entry-point command and an argument vector. -/
structure ContainerSpec where
  image : String
  command : List String
  args : List String
  deriving Repr, DecidableEq

/-- One parameter of a component signature: its name and, when the
source declares a default, that Python default value rendered as text
(`dflt := none` for a parameter without a default). -/
structure Param where
  name : String
  dflt : Option String
  deriving Repr, DecidableEq

/-- The `ConcatPlaceholder` of `kfp.dsl`: at pipeline-compile time its
fragments are concatenated into a single command-line token. -/
def ConcatPlaceholder (fragments : List String) : String :=
  String.join fragments

/-- The flag/value pairs of an alternating argument vector: element 0
paired with element 1, element 2 with element 3, and so on.  A trailing
unpaired element is dropped. -/
def flagPairs : List String → List (String × String)
  | f :: v :: t => (f, v) :: flagPairs t
  | _ => []

/-- The flag names of an alternating argument vector: its elements at
even indices. -/
def flagsOf (args : List String) : List String :=
  (flagPairs args).map Prod.fst

/-- The value standing immediately after the flag named `flag` in an
alternating argument vector, when that flag occurs. -/
def valueOf (flag : String) (args : List String) : Option String :=
  ((flagPairs args).find? (fun p => p.1 = flag)).map Prod.snd

/-- The default value a signature records for the parameter named `n`. -/
def defaultOf (ps : List Param) (n : String) : Option String :=
  (ps.find? (fun p => p.name = n)).bind Param.dflt

/-- True when at least one parameter of the signature carries a default. -/
def hasDefaulted (ps : List Param) : Bool :=
  ps.any (fun p => p.dflt.isSome)

/-- The last two elements of a list (the whole list when shorter). -/
def lastTwo {α : Type} (l : List α) : List α :=
  l.drop (l.length - 2)

/-- The placeholder string interpolating the `projectId` metadata field
of the input model artifact, as written literally in the source. -/
def modelProjectIdPlaceholder : String :=
  "\x7b\x7b$.inputs.artifacts[\x27model\x27].metadata[\x27projectId\x27]\x7d\x7d"

/-- The placeholder string interpolating the `datasetId` metadata field
of the input model artifact, as written literally in the source. -/
def modelDatasetIdPlaceholder : String :=
  "\x7b\x7b$.inputs.artifacts[\x27model\x27].metadata[\x27datasetId\x27]\x7d\x7d"

/-- The placeholder string interpolating the `modelId` metadata field
of the input model artifact, as written literally in the source. -/
def modelModelIdPlaceholder : String :=
  "\x7b\x7b$.inputs.artifacts[\x27model\x27].metadata[\x27modelId\x27]\x7d\x7d"

/-- The executor-input placeholder `\x7b\x7b$\x7d\x7d` from the source. -/
def executorInputPlaceholder : String :=
  "\x7b\x7b$\x7d\x7d"

/-- The fixed container image reference shared by all four components. -/
def componentImage : String :=
  "gcr.io/ml-pipeline/google-cloud-pipeline-components:latest"

/-- Embedding of `bigquery_query_job` from
`v1/bigquery/query_job/component.py`.  Parameters appear in source
order; `destination_table` (an output artifact) is never referenced in
the body and `gcp_resources` is the output path placeholder. -/
def bigquery_query_job (project : String) (destination_table : String)
    (gcp_resources : String) (query : String) (location : String)
    (query_parameters : String) (job_configuration_query : String)
    (labels : String) (encryption_spec_key_name : String) : ContainerSpec :=
  { image := componentImage
    command := ["python3", "-u", "-m",
      "google_cloud_pipeline_components.container.v1.bigquery.query_job.launcher"]
    args := ["--type",
      "BigqueryQueryJob",
      "--project",
      project,
      "--location",
      location,
      "--payload",
      ConcatPlaceholder ["\x7b", "\"configuration\": \x7b", "\"query\": ",
        job_configuration_query, ", \"labels\": ", labels, "\x7d", "\x7d"],
      "--job_configuration_query_override",
      ConcatPlaceholder ["\x7b", "\"query\": \"", query, "\"",
        ", \"query_parameters\": ", query_parameters,
        ", \"destination_encryption_configuration\": \x7b",
        "\"kmsKeyName\": \"", encryption_spec_key_name, "\"\x7d", "\x7d"],
      "--gcp_resources",
      gcp_resources,
      "--executor_input",
      executorInputPlaceholder] }

/-- The signature of `bigquery_query_job`: parameter names in source
order with their Python defaults rendered as text. -/
def bigquery_query_job_params : List Param :=
  [⟨"project", none⟩, ⟨"destination_table", none⟩, ⟨"gcp_resources", none⟩,
   ⟨"query", some ""⟩, ⟨"location", some "us-central1"⟩,
   ⟨"query_parameters", some "[]"⟩,
   ⟨"job_configuration_query", some "\x7b\x7d"⟩,
   ⟨"labels", some "\x7b\x7d"⟩, ⟨"encryption_spec_key_name", some ""⟩]

/-- Embedding of `wait_gcp_resources` from
`v1/wait_gcp_resources/component.py`. -/
def wait_gcp_resources (input_gcp_resources : String)
    (gcp_resources : String) : ContainerSpec :=
  { image := componentImage
    command := ["python3", "-u", "-m",
      "google_cloud_pipeline_components.container.v1.wait_gcp_resources.launcher"]
    args := ["--type",
      "Wait",
      "--project",
      "",
      "--location",
      "",
      "--payload",
      input_gcp_resources,
      "--gcp_resources",
      gcp_resources] }

/-- The signature of `wait_gcp_resources`: both parameters are declared
without defaults in the source. -/
def wait_gcp_resources_params : List Param :=
  [⟨"input_gcp_resources", none⟩, ⟨"gcp_resources", none⟩]

/-- Embedding of `bigquery_explain_forecast_model_job` from
`v1/bigquery/explain_forecast_model/component.py`.  The `model` input
artifact is referenced in the body only through the three literal
metadata placeholder strings; `horizon` and `confidence_level` are the
strings substituted for those parameters. -/
def bigquery_explain_forecast_model_job (project : String)
    (model : String) (destination_table : String) (gcp_resources : String)
    (location : String) (horizon : String) (confidence_level : String)
    (query_parameters : String) (job_configuration_query : String)
    (labels : String) (encryption_spec_key_name : String) : ContainerSpec :=
  { image := componentImage
    command := ["python3", "-u", "-m",
      "google_cloud_pipeline_components.container.v1.bigquery.explain_forecast_model.launcher"]
    args := ["--type",
      "BigqueryExplainForecastModelJob",
      "--project",
      project,
      "--location",
      location,
      "--model_name",
      ConcatPlaceholder [modelProjectIdPlaceholder, ".",
        modelDatasetIdPlaceholder, ".", modelModelIdPlaceholder],
      "--horizon",
      horizon,
      "--confidence_level",
      confidence_level,
      "--payload",
      ConcatPlaceholder ["\x7b", "\"configuration\": \x7b", "\"query\": ",
        job_configuration_query, ", \"labels\": ", labels, "\x7d", "\x7d"],
      "--job_configuration_query_override",
      ConcatPlaceholder ["\x7b", "\"query_parameters\": ", query_parameters,
        ", \"destination_encryption_configuration\": \x7b",
        "\"kmsKeyName\": \"", encryption_spec_key_name, "\"\x7d", "\x7d"],
      "--gcp_resources",
      gcp_resources,
      "--executor_input",
      executorInputPlaceholder] }

/-- The signature of `bigquery_explain_forecast_model_job`: parameter
names in source order with their Python defaults rendered as text. -/
def bigquery_explain_forecast_model_job_params : List Param :=
  [⟨"project", none⟩, ⟨"model", none⟩, ⟨"destination_table", none⟩,
   ⟨"gcp_resources", none⟩, ⟨"location", some "us-central1"⟩,
   ⟨"horizon", some "3"⟩, ⟨"confidence_level", some "0.95"⟩,
   ⟨"query_parameters", some "[]"⟩,
   ⟨"job_configuration_query", some "\x7b\x7d"⟩,
   ⟨"labels", some "\x7b\x7d"⟩, ⟨"encryption_spec_key_name", some ""⟩]

/-- Embedding of `bigquery_export_model_job` from
`v1/bigquery/export_model/component.py`.  The `model` input artifact is
referenced in the body only through the three literal metadata
placeholder strings. -/
def bigquery_export_model_job (project : String) (model : String)
    (model_destination_path : String) (exported_model_path : String)
    (gcp_resources : String) (location : String)
    (job_configuration_extract : String) (labels : String) : ContainerSpec :=
  { image := componentImage
    command := ["python3", "-u", "-m",
      "google_cloud_pipeline_components.container.v1.bigquery.export_model.launcher"]
    args := ["--type",
      "BigqueryExportModelJob",
      "--project",
      project,
      "--location",
      location,
      "--model_name",
      ConcatPlaceholder [modelProjectIdPlaceholder, ".",
        modelDatasetIdPlaceholder, ".", modelModelIdPlaceholder],
      "--model_destination_path",
      model_destination_path,
      "--payload",
      ConcatPlaceholder ["\x7b", "\"configuration\": \x7b", "\"query\": ",
        job_configuration_extract, ", \"labels\": ", labels, "\x7d", "\x7d"],
      "--exported_model_path",
      exported_model_path,
      "--gcp_resources",
      gcp_resources,
      "--executor_input",
      executorInputPlaceholder] }

/-- The signature of `bigquery_export_model_job`: parameter names in
source order with their Python defaults rendered as text. -/
def bigquery_export_model_job_params : List Param :=
  [⟨"project", none⟩, ⟨"model", none⟩, ⟨"model_destination_path", none⟩,
   ⟨"exported_model_path", none⟩, ⟨"gcp_resources", none⟩,
   ⟨"location", some "us-central1"⟩,
   ⟨"job_configuration_extract", some "\x7b\x7d"⟩,
   ⟨"labels", some "\x7b\x7d"⟩]

/-- The flag names of `bigquery_query_job`, in emission order. -/
def bigquery_query_job_flags : List String :=
  ["--type", "--project", "--location", "--payload",
   "--job_configuration_query_override", "--gcp_resources",
   "--executor_input"]

/-- The flag names of `bigquery_explain_forecast_model_job`, in
emission order. -/
def bigquery_explain_forecast_model_job_flags : List String :=
  ["--type", "--project", "--location", "--model_name", "--horizon",
   "--confidence_level", "--payload", "--job_configuration_query_override",
   "--gcp_resources", "--executor_input"]

/-- The flag names of `bigquery_export_model_job`, in emission order. -/
def bigquery_export_model_job_flags : List String :=
  ["--type", "--project", "--location", "--model_name",
   "--model_destination_path", "--payload", "--exported_model_path",
   "--gcp_resources", "--executor_input"]

/-- The flag names of `wait_gcp_resources`, in emission order. -/
def wait_gcp_resources_flags : List String :=
  ["--type", "--project", "--location", "--payload", "--gcp_resources"]

/-- The five flag names the spec names explicitly as common to the
launcher command lines. -/
def commonFlags : List String :=
  ["--type", "--project", "--location", "--payload", "--gcp_resources"]

/-- Concatenation of strings is associative; `ConcatPlaceholder` chains
can therefore be regrouped freely. -/
theorem str_append_assoc (a b c : String) : a ++ b ++ c = a ++ (b ++ c) := by
  cases a with
  | mk as =>
  cases b with
  | mk bs =>
  cases c with
  | mk cs =>
  show String.mk ((as ++ bs) ++ cs) = String.mk (as ++ (bs ++ cs))
  rw [List.append_assoc]

/-- Claim C1: for every input, the argument vector of each of the four
components alternates flags and values: its length is twice the number
of flag/value pairs, the flag names at even positions are a fixed list
independent of all inputs, and those flag names include `--type`,
`--project`, `--location`, `--payload` and `--gcp_resources`. -/
theorem c1_alternating_fixed_flags
    (project destination_table gcp_resources query location
      query_parameters job_configuration_query labels
      encryption_spec_key_name model horizon confidence_level
      model_destination_path exported_model_path job_configuration_extract
      input_gcp_resources : String) :
    (flagsOf (bigquery_query_job project destination_table gcp_resources
        query location query_parameters job_configuration_query labels
        encryption_spec_key_name).args = bigquery_query_job_flags ∧
      (bigquery_query_job project destination_table gcp_resources query
        location query_parameters job_configuration_query labels
        encryption_spec_key_name).args.length
        = 2 * bigquery_query_job_flags.length) ∧
    (flagsOf (bigquery_explain_forecast_model_job project model
        destination_table gcp_resources location horizon confidence_level
        query_parameters job_configuration_query labels
        encryption_spec_key_name).args
        = bigquery_explain_forecast_model_job_flags ∧
      (bigquery_explain_forecast_model_job project model destination_table
        gcp_resources location horizon confidence_level query_parameters
        job_configuration_query labels
        encryption_spec_key_name).args.length
        = 2 * bigquery_explain_forecast_model_job_flags.length) ∧
    (flagsOf (bigquery_export_model_job project model
        model_destination_path exported_model_path gcp_resources location
        job_configuration_extract labels).args
        = bigquery_export_model_job_flags ∧
      (bigquery_export_model_job project model model_destination_path
        exported_model_path gcp_resources location
        job_configuration_extract labels).args.length
        = 2 * bigquery_export_model_job_flags.length) ∧
    (flagsOf (wait_gcp_resources input_gcp_resources gcp_resources).args
        = wait_gcp_resources_flags ∧
      (wait_gcp_resources input_gcp_resources gcp_resources).args.length
        = 2 * wait_gcp_resources_flags.length) ∧
    (commonFlags ⊆ bigquery_query_job_flags ∧
      commonFlags ⊆ bigquery_explain_forecast_model_job_flags ∧
      commonFlags ⊆ bigquery_export_model_job_flags ∧
      commonFlags ⊆ wait_gcp_resources_flags) :=
  ⟨⟨rfl, rfl⟩, ⟨rfl, rfl⟩, ⟨rfl, rfl⟩, ⟨rfl, rfl⟩,
    by decide, by decide, by decide, by decide⟩

/-- Claim C2: every component emits the fixed image reference
`gcr.io/ml-pipeline/google-cloud-pipeline-components:latest` and the
fixed entry-point command `python3 -u -m <its launcher module>`,
independently of every parameter value. -/
theorem c2_fixed_image_and_command
    (project destination_table gcp_resources query location
      query_parameters job_configuration_query labels
      encryption_spec_key_name model horizon confidence_level
      model_destination_path exported_model_path job_configuration_extract
      input_gcp_resources : String) :
    ((bigquery_query_job project destination_table gcp_resources query
        location query_parameters job_configuration_query labels
        encryption_spec_key_name).image
        = "gcr.io/ml-pipeline/google-cloud-pipeline-components:latest" ∧
      (bigquery_query_job project destination_table gcp_resources query
        location query_parameters job_configuration_query labels
        encryption_spec_key_name).command
        = ["python3", "-u", "-m",
          "google_cloud_pipeline_components.container.v1.bigquery.query_job.launcher"]) ∧
    ((bigquery_explain_forecast_model_job project model destination_table
        gcp_resources location horizon confidence_level query_parameters
        job_configuration_query labels encryption_spec_key_name).image
        = "gcr.io/ml-pipeline/google-cloud-pipeline-components:latest" ∧
      (bigquery_explain_forecast_model_job project model destination_table
        gcp_resources location horizon confidence_level query_parameters
        job_configuration_query labels encryption_spec_key_name).command
        = ["python3", "-u", "-m",
          "google_cloud_pipeline_components.container.v1.bigquery.explain_forecast_model.launcher"]) ∧
    ((bigquery_export_model_job project model model_destination_path
        exported_model_path gcp_resources location
        job_configuration_extract labels).image
        = "gcr.io/ml-pipeline/google-cloud-pipeline-components:latest" ∧
      (bigquery_export_model_job project model model_destination_path
        exported_model_path gcp_resources location
        job_configuration_extract labels).command
        = ["python3", "-u", "-m",
          "google_cloud_pipeline_components.container.v1.bigquery.export_model.launcher"]) ∧
    ((wait_gcp_resources input_gcp_resources gcp_resources).image
        = "gcr.io/ml-pipeline/google-cloud-pipeline-components:latest" ∧
      (wait_gcp_resources input_gcp_resources gcp_resources).command
        = ["python3", "-u", "-m",
          "google_cloud_pipeline_components.container.v1.wait_gcp_resources.launcher"]) :=
  ⟨⟨rfl, rfl⟩, ⟨rfl, rfl⟩, ⟨rfl, rfl⟩, ⟨rfl, rfl⟩⟩

/-- Claim C5: every component function is total on all well-typed
inputs, including empty strings (the models of empty lists and dicts):
it unconditionally returns the `ContainerSpec` given by its single
branch-free construction, with no validation, no conditional and no
error path. -/
theorem c5_unconditional_container_spec
    (project destination_table gcp_resources query location
      query_parameters job_configuration_query labels
      encryption_spec_key_name model horizon confidence_level
      model_destination_path exported_model_path job_configuration_extract
      input_gcp_resources : String) :
    (bigquery_query_job project destination_table gcp_resources query
        location query_parameters job_configuration_query labels
        encryption_spec_key_name
      = { image := componentImage
          command := ["python3", "-u", "-m",
            "google_cloud_pipeline_components.container.v1.bigquery.query_job.launcher"]
          args := ["--type", "BigqueryQueryJob", "--project", project,
            "--location", location, "--payload",
            ConcatPlaceholder ["\x7b", "\"configuration\": \x7b",
              "\"query\": ", job_configuration_query, ", \"labels\": ",
              labels, "\x7d", "\x7d"],
            "--job_configuration_query_override",
            ConcatPlaceholder ["\x7b", "\"query\": \"", query, "\"",
              ", \"query_parameters\": ", query_parameters,
              ", \"destination_encryption_configuration\": \x7b",
              "\"kmsKeyName\": \"", encryption_spec_key_name, "\"\x7d",
              "\x7d"],
            "--gcp_resources", gcp_resources, "--executor_input",
            executorInputPlaceholder] }) ∧
    (bigquery_explain_forecast_model_job project model destination_table
        gcp_resources location horizon confidence_level query_parameters
        job_configuration_query labels encryption_spec_key_name
      = { image := componentImage
          command := ["python3", "-u", "-m",
            "google_cloud_pipeline_components.container.v1.bigquery.explain_forecast_model.launcher"]
          args := ["--type", "BigqueryExplainForecastModelJob",
            "--project", project, "--location", location, "--model_name",
            ConcatPlaceholder [modelProjectIdPlaceholder, ".",
              modelDatasetIdPlaceholder, ".", modelModelIdPlaceholder],
            "--horizon", horizon, "--confidence_level", confidence_level,
            "--payload",
            ConcatPlaceholder ["\x7b", "\"configuration\": \x7b",
              "\"query\": ", job_configuration_query, ", \"labels\": ",
              labels, "\x7d", "\x7d"],
            "--job_configuration_query_override",
            ConcatPlaceholder ["\x7b", "\"query_parameters\": ",
              query_parameters,
              ", \"destination_encryption_configuration\": \x7b",
              "\"kmsKeyName\": \"", encryption_spec_key_name, "\"\x7d",
              "\x7d"],
            "--gcp_resources", gcp_resources, "--executor_input",
            executorInputPlaceholder] }) ∧
    (bigquery_export_model_job project model model_destination_path
        exported_model_path gcp_resources location
        job_configuration_extract labels
      = { image := componentImage
          command := ["python3", "-u", "-m",
            "google_cloud_pipeline_components.container.v1.bigquery.export_model.launcher"]
          args := ["--type", "BigqueryExportModelJob", "--project",
            project, "--location", location, "--model_name",
            ConcatPlaceholder [modelProjectIdPlaceholder, ".",
              modelDatasetIdPlaceholder, ".", modelModelIdPlaceholder],
            "--model_destination_path", model_destination_path,
            "--payload",
            ConcatPlaceholder ["\x7b", "\"configuration\": \x7b",
              "\"query\": ", job_configuration_extract, ", \"labels\": ",
              labels, "\x7d", "\x7d"],
            "--exported_model_path", exported_model_path,
            "--gcp_resources", gcp_resources, "--executor_input",
            executorInputPlaceholder] }) ∧
    (wait_gcp_resources input_gcp_resources gcp_resources
      = { image := componentImage
          command := ["python3", "-u", "-m",
            "google_cloud_pipeline_components.container.v1.wait_gcp_resources.launcher"]
          args := ["--type", "Wait", "--project", "", "--location", "",
            "--payload", input_gcp_resources, "--gcp_resources",
            gcp_resources] }) :=
  ⟨rfl, rfl, rfl, rfl⟩

/-- Claim C6: each component is a deterministic pure mapping of its
keyword arguments: two invocations whose argument values agree pointwise
return identical `ContainerSpec` values. -/
theorem c6_deterministic_pure_mapping :
    (∀ project1 destination_table1 gcp_resources1 query1 location1
        query_parameters1 job_configuration_query1 labels1
        encryption_spec_key_name1 project2 destination_table2
        gcp_resources2 query2 location2 query_parameters2
        job_configuration_query2 labels2 encryption_spec_key_name2 :
        String,
      project1 = project2 → destination_table1 = destination_table2 →
      gcp_resources1 = gcp_resources2 → query1 = query2 →
      location1 = location2 → query_parameters1 = query_parameters2 →
      job_configuration_query1 = job_configuration_query2 →
      labels1 = labels2 →
      encryption_spec_key_name1 = encryption_spec_key_name2 →
      bigquery_query_job project1 destination_table1 gcp_resources1
          query1 location1 query_parameters1 job_configuration_query1
          labels1 encryption_spec_key_name1
        = bigquery_query_job project2 destination_table2 gcp_resources2
            query2 location2 query_parameters2 job_configuration_query2
            labels2 encryption_spec_key_name2) ∧
    (∀ project1 model1 destination_table1 gcp_resources1 location1
        horizon1 confidence_level1 query_parameters1
        job_configuration_query1 labels1 encryption_spec_key_name1
        project2 model2 destination_table2 gcp_resources2 location2
        horizon2 confidence_level2 query_parameters2
        job_configuration_query2 labels2 encryption_spec_key_name2 :
        String,
      project1 = project2 → model1 = model2 →
      destination_table1 = destination_table2 →
      gcp_resources1 = gcp_resources2 → location1 = location2 →
      horizon1 = horizon2 → confidence_level1 = confidence_level2 →
      query_parameters1 = query_parameters2 →
      job_configuration_query1 = job_configuration_query2 →
      labels1 = labels2 →
      encryption_spec_key_name1 = encryption_spec_key_name2 →
      bigquery_explain_forecast_model_job project1 model1
          destination_table1 gcp_resources1 location1 horizon1
          confidence_level1 query_parameters1 job_configuration_query1
          labels1 encryption_spec_key_name1
        = bigquery_explain_forecast_model_job project2 model2
            destination_table2 gcp_resources2 location2 horizon2
            confidence_level2 query_parameters2 job_configuration_query2
            labels2 encryption_spec_key_name2) ∧
    (∀ project1 model1 model_destination_path1 exported_model_path1
        gcp_resources1 location1 job_configuration_extract1 labels1
        project2 model2 model_destination_path2 exported_model_path2
        gcp_resources2 location2 job_configuration_extract2 labels2 :
        String,
      project1 = project2 → model1 = model2 →
      model_destination_path1 = model_destination_path2 →
      exported_model_path1 = exported_model_path2 →
      gcp_resources1 = gcp_resources2 → location1 = location2 →
      job_configuration_extract1 = job_configuration_extract2 →
      labels1 = labels2 →
      bigquery_export_model_job project1 model1 model_destination_path1
          exported_model_path1 gcp_resources1 location1
          job_configuration_extract1 labels1
        = bigquery_export_model_job project2 model2
            model_destination_path2 exported_model_path2 gcp_resources2
            location2 job_configuration_extract2 labels2) ∧
    (∀ input_gcp_resources1 gcp_resources1 input_gcp_resources2
        gcp_resources2 : String,
      input_gcp_resources1 = input_gcp_resources2 →
      gcp_resources1 = gcp_resources2 →
      wait_gcp_resources input_gcp_resources1 gcp_resources1
        = wait_gcp_resources input_gcp_resources2 gcp_resources2) := by
  refine ⟨?_, ?_, ?_, ?_⟩ <;>
    { intros
      subst_vars
      rfl }

/-- Witness for claim C6: the determinism theorem applied at concrete
equal inputs for each of the four components. -/
theorem c6_deterministic_pure_mapping_witness :
    (bigquery_query_job "p" "t" "g" "q" "l" "[]" "\x7b\x7d" "\x7b\x7d" ""
      = bigquery_query_job "p" "t" "g" "q" "l" "[]" "\x7b\x7d" "\x7b\x7d"
          "") ∧
    (bigquery_explain_forecast_model_job "p" "m" "t" "g" "l" "3" "0.95"
        "[]" "\x7b\x7d" "\x7b\x7d" ""
      = bigquery_explain_forecast_model_job "p" "m" "t" "g" "l" "3"
          "0.95" "[]" "\x7b\x7d" "\x7b\x7d" "") ∧
    (bigquery_export_model_job "p" "m" "d" "e" "g" "l" "\x7b\x7d"
        "\x7b\x7d"
      = bigquery_export_model_job "p" "m" "d" "e" "g" "l" "\x7b\x7d"
          "\x7b\x7d") ∧
    (wait_gcp_resources "r" "g" = wait_gcp_resources "r" "g") :=
  ⟨c6_deterministic_pure_mapping.1 "p" "t" "g" "q" "l" "[]" "\x7b\x7d"
      "\x7b\x7d" "" "p" "t" "g" "q" "l" "[]" "\x7b\x7d" "\x7b\x7d" ""
      rfl rfl rfl rfl rfl rfl rfl rfl rfl,
    c6_deterministic_pure_mapping.2.1 "p" "m" "t" "g" "l" "3" "0.95"
      "[]" "\x7b\x7d" "\x7b\x7d" "" "p" "m" "t" "g" "l" "3" "0.95" "[]"
      "\x7b\x7d" "\x7b\x7d" "" rfl rfl rfl rfl rfl rfl rfl rfl rfl rfl
      rfl,
    c6_deterministic_pure_mapping.2.2.1 "p" "m" "d" "e" "g" "l"
      "\x7b\x7d" "\x7b\x7d" "p" "m" "d" "e" "g" "l" "\x7b\x7d" "\x7b\x7d"
      rfl rfl rfl rfl rfl rfl rfl rfl,
    c6_deterministic_pure_mapping.2.2.2 "r" "g" "r" "g" rfl rfl⟩

/-- Claim C3: in each of the three BigQuery components, the value
standing immediately after the `--payload` flag is the concatenation of
the literals `\x7b`, `"configuration": \x7b` and `"query": `, the
job-configuration parameter, `, "labels": `, the labels parameter, and
two closing braces. -/
theorem c3_payload_template
    (project destination_table gcp_resources query location
      query_parameters job_configuration_query labels
      encryption_spec_key_name model horizon confidence_level
      model_destination_path exported_model_path
      job_configuration_extract : String) :
    valueOf "--payload" (bigquery_query_job project destination_table
        gcp_resources query location query_parameters
        job_configuration_query labels encryption_spec_key_name).args
      = some ("\x7b" ++ "\"configuration\": \x7b" ++ "\"query\": "
          ++ job_configuration_query ++ ", \"labels\": " ++ labels
          ++ "\x7d" ++ "\x7d") ∧
    valueOf "--payload" (bigquery_explain_forecast_model_job project
        model destination_table gcp_resources location horizon
        confidence_level query_parameters job_configuration_query labels
        encryption_spec_key_name).args
      = some ("\x7b" ++ "\"configuration\": \x7b" ++ "\"query\": "
          ++ job_configuration_query ++ ", \"labels\": " ++ labels
          ++ "\x7d" ++ "\x7d") ∧
    valueOf "--payload" (bigquery_export_model_job project model
        model_destination_path exported_model_path gcp_resources
        location job_configuration_extract labels).args
      = some ("\x7b" ++ "\"configuration\": \x7b" ++ "\"query\": "
          ++ job_configuration_extract ++ ", \"labels\": " ++ labels
          ++ "\x7d" ++ "\x7d") :=
  ⟨rfl, rfl, rfl⟩

/-- Claim C4: in `bigquery_explain_forecast_model_job` and
`bigquery_export_model_job`, the value standing immediately after the
`--model_name` flag is the `projectId` metadata placeholder of the
model artifact, a literal dot, its `datasetId` placeholder, a literal
dot, and its `modelId` placeholder, concatenated in that order. -/
theorem c4_model_name_placeholders
    (project model destination_table gcp_resources location horizon
      confidence_level query_parameters job_configuration_query labels
      encryption_spec_key_name model_destination_path
      exported_model_path job_configuration_extract : String) :
    valueOf "--model_name" (bigquery_explain_forecast_model_job project
        model destination_table gcp_resources location horizon
        confidence_level query_parameters job_configuration_query labels
        encryption_spec_key_name).args
      = some (modelProjectIdPlaceholder ++ "." ++ modelDatasetIdPlaceholder
          ++ "." ++ modelModelIdPlaceholder) ∧
    valueOf "--model_name" (bigquery_export_model_job project model
        model_destination_path exported_model_path gcp_resources
        location job_configuration_extract labels).args
      = some (modelProjectIdPlaceholder ++ "." ++ modelDatasetIdPlaceholder
          ++ "." ++ modelModelIdPlaceholder) :=
  ⟨rfl, rfl⟩

/-- Claim C7 counterexample: it is false that each of the four
component definitions declares at least one parameter carrying a
default value, because `wait_gcp_resources` declares none. -/
theorem c7_counterexample_wait_no_default :
    ¬ (hasDefaulted bigquery_query_job_params = true ∧
       hasDefaulted bigquery_explain_forecast_model_job_params = true ∧
       hasDefaulted bigquery_export_model_job_params = true ∧
       hasDefaulted wait_gcp_resources_params = true) := by
  decide

/-- Claim C7 (amended): each of the three BigQuery component
definitions declares at least one parameter carrying a default value,
while `wait_gcp_resources` declares two parameters and neither carries
a default. -/
theorem c7_defaults_shape :
    hasDefaulted bigquery_query_job_params = true ∧
    hasDefaulted bigquery_explain_forecast_model_job_params = true ∧
    hasDefaulted bigquery_export_model_job_params = true ∧
    hasDefaulted wait_gcp_resources_params = false ∧
    wait_gcp_resources_params.length = 2 := by
  decide

/-- Claim C8: for every choice of the other parameters there is a
suffix beginning with a double quote, independent of the query, such
that for every query string the value after
`--job_configuration_query_override` in `bigquery_query_job` is exactly
the fixed literal `\x7b"query": "` followed by the query verbatim, with
no escaping, followed by that suffix. -/
theorem c8_query_embedded_verbatim
    (project destination_table gcp_resources location query_parameters
      job_configuration_query labels encryption_spec_key_name : String) :
    ∃ tail : String, tail.data.take 1 = ['\x22'] ∧
      ∀ query : String,
        valueOf "--job_configuration_query_override"
            (bigquery_query_job project destination_table gcp_resources
              query location query_parameters job_configuration_query
              labels encryption_spec_key_name).args
          = some (("\x7b" ++ "\"query\": \"") ++ query ++ tail) := by
  refine ⟨"\"" ++ ", \"query_parameters\": " ++ query_parameters
      ++ ", \"destination_encryption_configuration\": \x7b"
      ++ "\"kmsKeyName\": \"" ++ encryption_spec_key_name ++ "\"\x7d"
      ++ "\x7d", ?_, fun query => ?_⟩
  · simp [str_append_assoc]
  · simp [bigquery_query_job, valueOf, flagPairs, ConcatPlaceholder,
      String.join, str_append_assoc]

/-- Claim C9: the three BigQuery component signatures record
`us-central1` as the default of their `location` parameter, and calling
each component with that declared default emits `us-central1`
immediately after the `--location` flag, whatever the remaining
parameters are. -/
theorem c9_location_default
    (project destination_table gcp_resources query query_parameters
      job_configuration_query labels encryption_spec_key_name model
      horizon confidence_level model_destination_path
      exported_model_path job_configuration_extract : String) :
    defaultOf bigquery_query_job_params "location" = some "us-central1" ∧
    defaultOf bigquery_explain_forecast_model_job_params "location"
      = some "us-central1" ∧
    defaultOf bigquery_export_model_job_params "location"
      = some "us-central1" ∧
    valueOf "--location" (bigquery_query_job project destination_table
        gcp_resources query
        ((defaultOf bigquery_query_job_params "location").getD "")
        query_parameters job_configuration_query labels
        encryption_spec_key_name).args = some "us-central1" ∧
    valueOf "--location" (bigquery_explain_forecast_model_job project
        model destination_table gcp_resources
        ((defaultOf bigquery_explain_forecast_model_job_params
          "location").getD "")
        horizon confidence_level query_parameters
        job_configuration_query labels
        encryption_spec_key_name).args = some "us-central1" ∧
    valueOf "--location" (bigquery_export_model_job project model
        model_destination_path exported_model_path gcp_resources
        ((defaultOf bigquery_export_model_job_params "location").getD "")
        job_configuration_extract labels).args = some "us-central1" :=
  ⟨rfl, rfl, rfl, rfl, rfl, rfl⟩

/-- Claim C10: `wait_gcp_resources` emits empty strings after
`--project` and `--location` and `Wait` after `--type`, and none of its
flag positions holds `--executor_input`, whereas each BigQuery
component ends its argument vector with `--executor_input` followed by
the executor-input placeholder. -/
theorem c10_wait_versus_bigquery_tail
    (project destination_table gcp_resources query location
      query_parameters job_configuration_query labels
      encryption_spec_key_name model horizon confidence_level
      model_destination_path exported_model_path
      job_configuration_extract input_gcp_resources : String) :
    valueOf "--type"
        (wait_gcp_resources input_gcp_resources gcp_resources).args
      = some "Wait" ∧
    valueOf "--project"
        (wait_gcp_resources input_gcp_resources gcp_resources).args
      = some "" ∧
    valueOf "--location"
        (wait_gcp_resources input_gcp_resources gcp_resources).args
      = some "" ∧
    "--executor_input" ∉ flagsOf
        (wait_gcp_resources input_gcp_resources gcp_resources).args ∧
    lastTwo (bigquery_query_job project destination_table gcp_resources
        query location query_parameters job_configuration_query labels
        encryption_spec_key_name).args
      = ["--executor_input", executorInputPlaceholder] ∧
    lastTwo (bigquery_explain_forecast_model_job project model
        destination_table gcp_resources location horizon
        confidence_level query_parameters job_configuration_query labels
        encryption_spec_key_name).args
      = ["--executor_input", executorInputPlaceholder] ∧
    lastTwo (bigquery_export_model_job project model
        model_destination_path exported_model_path gcp_resources
        location job_configuration_extract labels).args
      = ["--executor_input", executorInputPlaceholder] :=
  ⟨rfl, rfl, rfl,
    by simp [wait_gcp_resources, flagsOf, flagPairs],
    rfl, rfl, rfl⟩
